import Mathlib

/-!
Verification development for the echopype repository (lsetiawan/echopype).

Shallow embedding of the code under `src/echopype/`:
* `utils/io.py` — `get_file_format`, `save_file`
* `process/process_new.py` — the `Process.env_params` setter and
  `Process.recalculate_environment`
* `process/echodata.py` — the `_check_key_param_consistency` wrapper and the
  per-group raw readers `get_env_from_raw` / `get_vend_from_raw` /
  `get_beam_from_raw`
* `calibrate/api.py` — `_compute_cal`, `compute_Sv`, `compute_Sp`

File paths and Python strings are modelled as `String` or `List Char`
(Python `str.split` / `str.endswith` become list operations on characters).
Python dicts (environment parameter mappings) are modelled as association
lists `List (String × Int)` in insertion order, which is how Python 3.7+
dicts behave; a dict comprehension filtering the items is `List.filter`,
and dict equality of a filtered dict against its source coincides with
list equality because filtering preserves order.

The calibrator classes (`CalibrateEK60`, `CalibrateEK80`, `CalibrateAZFP`)
and the process classes (`process_classes.py`) are not part of the given
sources; where their behaviour is needed it is modelled from the spec and
said so in the doc comment of the definition.
-/

/-! ## `utils/io.py` -/

/-- Embedding of `io.get_file_format` (src/echopype/utils/io.py lines 62-67).
The Python function tests `file.endswith('.nc')`, then
`file.endswith('.zarr')`, and otherwise falls through returning `None`.
The path is a `List Char`; `endswith` is the list-suffix test. -/
def get_file_format (file : List Char) : Option String :=
  if ".nc".toList <:+ file then some "netcdf4"
  else if ".zarr".toList <:+ file then some "zarr"
  else none

/-- The write effect `io.save_file` can perform: a netCDF write or a zarr
write to the given path. -/
inductive WriteAction where
  | toNetcdf (path : String)
  | toZarr (path : String)
deriving DecidableEq, Repr

/-- Embedding of `io.save_file` (src/echopype/utils/io.py lines 52-59),
reduced to the write it performs: `engine == 'netcdf4'` dispatches to
`ds.to_netcdf`, `engine == 'zarr'` to `ds.to_zarr`, any other engine value
falls through and performs no write (`none`). -/
def save_file (path : String) (engine : String) : Option WriteAction :=
  if engine = "netcdf4" then some (WriteAction.toNetcdf path)
  else if engine = "zarr" then some (WriteAction.toZarr path)
  else none

/-! ## `process/process_new.py`: environment parameters -/

/-- The recognized environment-parameter keys, exactly the `valid_params`
list inside the `Process.env_params` setter
(src/echopype/process/process_new.py lines 106-107). -/
def valid_params : List String :=
  ["sea_water_salinity", "sea_water_temperature",
   "sea_water_pressure", "speed_of_sound_in_sea_water", "seawater_absorption"]

/-- An environment parameter dict: association list in insertion order. -/
abbrev EnvParams := List (String × Int)

/-- Python dict item assignment `d[k] = v`: if the key is present its value
is replaced in place, otherwise the pair is appended at the end. -/
def dict_setitem (d : EnvParams) (k : String) (v : Int) : EnvParams :=
  if d.any (fun kv => kv.1 = k) then
    d.map (fun kv => if kv.1 = k then (k, v) else kv)
  else
    d ++ [(k, v)]

/-- Embedding of `Process.recalculate_environment`
(src/echopype/process/process_new.py lines 117-121): writes
`env_params['speed_of_sound_in_sea_water'] = calc_sound_speed(env_params)`
and then
`env_params['seawater_absorption'] = calc_seawater_absorption(ed, env_params)`.
`calc_sound_speed` / `calc_seawater_absorption` live in the process classes,
which are not among the given sources, so they are taken as function
parameters `cs` and `ca` (the `ed` argument is folded into `ca`). -/
def recalculate_environment (cs ca : EnvParams → Int) (env : EnvParams) : EnvParams :=
  let env1 := dict_setitem env "speed_of_sound_in_sea_water" (cs env)
  dict_setitem env1 "seawater_absorption" (ca env1)

/-- The dict comprehension
`{k: v for k, v in params.items() if k in valid_params}` of the setter
(src/echopype/process/process_new.py line 110). -/
def env_params_filter (p : EnvParams) : EnvParams :=
  p.filter (fun kv => decide (kv.1 ∈ valid_params))

/-- Embedding of the `Process.env_params` setter
(src/echopype/process/process_new.py lines 102-115).  `params is None`
returns early, leaving the stored `_env_params` untouched and warning
nothing.  Otherwise the stored dict is replaced by the valid-key subset of
`params` (the intermediate `self._env_params.update(params)` on line 108 is
immediately overwritten by the comprehension on line 110 and has no
observable effect), a warning is emitted iff the filtered dict differs from
`params`, and `recalculate_environment` is invoked at once.  Returns the
new stored dict and whether a warning was issued. -/
def env_params_setter (cs ca : EnvParams → Int) (old : EnvParams)
    (params : Option EnvParams) : EnvParams × Bool :=
  match params with
  | none => (old, false)
  | some p =>
      let filtered := env_params_filter p
      (recalculate_environment cs ca filtered, decide (filtered ≠ p))

/-! ## `process/echodata.py`: opening raw-file groups -/

/-- The apostrophe character, on which
`str(e).split("'")` splits the merge-error message
(src/echopype/process/echodata.py line 96). -/
def squote : Char := Char.ofNat 39

/-- Python `s.split(sep)` for a one-character separator `sep`, on the
character list of `s`: splits at every occurrence of the separator,
keeping empty pieces, so the result is always nonempty. -/
def split_char (c : Char) : List Char → List (List Char)
  | [] => [[]]
  | x :: xs =>
      if x = c then [] :: split_char c xs
      else
        match split_char c xs with
        | [] => [[x]]
        | y :: ys => (x :: y) :: ys

/-- Outcome of the wrapped `xr.open_mfdataset` call: either a merged
dataset (abstracted to `ok`) or an `xr.MergeError` carrying its message. -/
inductive RawOpenResult where
  | ok
  | mergeError (msg : List Char)
deriving DecidableEq

/-- Embedding of the `from_raw` wrapper produced by the
`EchoData._check_key_param_consistency` decorator
(src/echopype/process/echodata.py lines 81-103): with `raw_path` unset it
raises `ValueError("No raw files to open")`; otherwise it runs the wrapped
open and converts an `xr.MergeError` into
`ValueError(f"Files cannot be opened due to {var} changing across the files")`
where `var = str(e).split("'")[1]` (index 1 taken with a default for the
out-of-range case Python would raise on). -/
def from_raw (raw_path : Option (List String)) (open_result : RawOpenResult) :
    Except (List Char) Unit :=
  match raw_path with
  | none => Except.error "No raw files to open".toList
  | some _ =>
      match open_result with
      | RawOpenResult.ok => Except.ok ()
      | RawOpenResult.mergeError msg =>
          Except.error ("Files cannot be opened due to ".toList
            ++ (split_char squote msg).getD 1 []
            ++ " changing across the files".toList)

/-- The argument record of one `xr.open_mfdataset` call as issued by the
raw-group readers in src/echopype/process/echodata.py. -/
structure MfOpenArgs where
  paths : List String
  group : Option String
  combine : String
  concat_dim : Option String
  data_vars : String
  compat : Option String
  engine : Option String
deriving DecidableEq, Repr

/-- The single `xr.open_mfdataset` call made by `EchoData.get_env_from_raw`
(src/echopype/process/echodata.py lines 110-121): group `"Environment"`,
nested combine along `ping_time`, minimal data_vars, the stored engine. -/
def get_env_from_raw_args (raw_path : List String) (fmt : Option String) : MfOpenArgs :=
  { paths := raw_path, group := some "Environment", combine := "nested",
    concat_dim := some "ping_time", data_vars := "minimal",
    compat := none, engine := fmt }

/-- The single `xr.open_mfdataset` call made by `EchoData.get_vend_from_raw`
(src/echopype/process/echodata.py lines 123-134): group `"Vendor"`, nested
combine, `compat="no_conflicts"`, minimal data_vars, the stored engine. -/
def get_vend_from_raw_args (raw_path : List String) (fmt : Option String) : MfOpenArgs :=
  { paths := raw_path, group := some "Vendor", combine := "nested",
    concat_dim := none, data_vars := "minimal",
    compat := some "no_conflicts", engine := fmt }

/-- The single `xr.open_mfdataset` call made by `EchoData.get_beam_from_raw`
(src/echopype/process/echodata.py lines 136-149): group `"Beam"`, nested
combine along `ping_time`, minimal data_vars, the stored engine. -/
def get_beam_from_raw_args (raw_path : List String) (fmt : Option String) : MfOpenArgs :=
  { paths := raw_path, group := some "Beam", combine := "nested",
    concat_dim := some "ping_time", data_vars := "minimal",
    compat := none, engine := fmt }

/-- Semantics of a group-targeted open over a converted file, the file
being a store mapping group names to the (abstracted) group contents: the
open reads exactly the requested group of the store and nothing else. -/
def open_group (store : String → Option Nat) (args : MfOpenArgs) : Option Nat :=
  match args.group with
  | some g => store g
  | none => none

/-! ## `calibrate/api.py` -/

/-- The keys of the `CALIBRATOR` dispatch dict
(src/echopype/calibrate/api.py line 7). -/
def CALIBRATOR_keys : List String := ["EK60", "EK80", "AZFP"]

/-- The observable events of a `_compute_cal` run, in order: the
`ValueError`s of the input sanity checks, the `KeyError` of the
`CALIBRATOR[...]` dict lookup, construction of the calibration object, a
`ConfigurationError` raised by the calibrator, and the start of the
numeric Sv/Sp computation. -/
inductive CalEvent where
  | raiseValue (msg : String)
  | raiseKey (model : String)
  | raiseConfig (msg : String)
  | constructCalObj (model : String)
  | numericCompute (cal_type : String)
deriving DecidableEq, Repr

/-- Modelled from the spec: the calibrator classes `CalibrateEK60`,
`CalibrateEK80`, `CalibrateAZFP` (src/echopype/calibrate/calibrate_ek.py
and calibrate_azfp.py) are not among the given sources; their
`compute_Sv`/`compute_Sp` mode handling is taken from the spec's
calibration-engine state machine: for broadband-capable instruments (EK60,
EK80) an unspecified waveform or encode mode is a configuration error
(mandatory, not defaulted); waveform mode broadband with any encode mode
other than complex is a configuration error; otherwise the numeric
computation runs (band-integrated for complex, narrowband for power). -/
def calibrator_compute (model cal_type : String) (wm em : Option String) :
    List CalEvent :=
  if (model = "EK60" ∨ model = "EK80") ∧ (wm = none ∨ em = none) then
    [CalEvent.raiseConfig "waveform_mode and encode_mode must be specified"]
  else if wm = some "BB" ∧ ¬ em = some "complex" then
    [CalEvent.raiseConfig "waveform_mode BB requires encode_mode complex"]
  else
    [CalEvent.numericCompute cal_type]

/-- Embedding of `_compute_cal` (src/echopype/calibrate/api.py lines
10-36) as its event trace: first the sanity check
`waveform_mode is not None and waveform_mode not in ("BB", "CW")` raising
`ValueError`, then the same for `encode_mode` against `("complex",
"power")`, then the `CALIBRATOR[echodata.sonar_model]` lookup (a `KeyError`
for unknown models), construction of the calibration object, and its
`compute_Sv`/`compute_Sp` run (the calibrator itself is `calibrator_compute`,
modelled from the spec). -/
def _compute_cal (cal_type sonar_model : String) (wm em : Option String) :
    List CalEvent :=
  if ¬ wm = none ∧ ¬ wm = some "BB" ∧ ¬ wm = some "CW" then
    [CalEvent.raiseValue "Input waveform_mode not recognized!"]
  else if ¬ em = none ∧ ¬ em = some "complex" ∧ ¬ em = some "power" then
    [CalEvent.raiseValue "Input encode_mode not recognized!"]
  else if sonar_model ∈ CALIBRATOR_keys then
    CalEvent.constructCalObj sonar_model :: calibrator_compute sonar_model cal_type wm em
  else
    [CalEvent.raiseKey sonar_model]

/-- Embedding of `compute_Sv` (src/echopype/calibrate/api.py lines 39-79):
delegates to `_compute_cal` with `cal_type="Sv"`. -/
def compute_Sv (sonar_model : String) (wm em : Option String) : List CalEvent :=
  _compute_cal "Sv" sonar_model wm em

/-- Embedding of `compute_Sp` (src/echopype/calibrate/api.py lines 82-122):
delegates to `_compute_cal` with `cal_type="Sp"`. -/
def compute_Sp (sonar_model : String) (wm em : Option String) : List CalEvent :=
  _compute_cal "Sp" sonar_model wm em

/-- The state `compute_Sv` operates on: an `EchoData` object, abstracted to
its sonar model and raw contents.  `compute_Sv` constructs a fresh
calibration object per call and returns a new dataset; it does not write
to the `EchoData` object. -/
structure EchoDataS where
  sonar_model : String
  raw : Nat
deriving DecidableEq, Repr

/-- A full `compute_Sv` run as a state transformer: the returned value is
the event trace together with the effective env/cal parameter sets passed
through, and the `EchoData` state is returned unchanged (api.py constructs
a fresh calibrator and mutates nothing). -/
def compute_Sv_run (ed : EchoDataS) (env cal : EnvParams) (wm em : Option String) :
    (List CalEvent × EnvParams × EnvParams) × EchoDataS :=
  ((compute_Sv ed.sonar_model wm em, env, cal), ed)

/-! ## Helper lemmas about `dict_setitem` -/

theorem lookup_map_update (k : String) (v : Int) (d : EnvParams)
    (h : d.any (fun kv => decide (kv.1 = k)) = true) :
    (d.map (fun kv => if kv.1 = k then (k, v) else kv)).lookup k = some v := by
  induction d with
  | nil => simp at h
  | cons hd tl ih =>
      obtain ⟨a, b⟩ := hd
      by_cases hak : a = k
      · simp [hak, List.lookup_cons]
      · simp only [List.any_cons, Bool.or_eq_true, decide_eq_true_eq] at h
        rcases h with h | h
        · exact absurd h hak
        · have hba : (k == a) = false := beq_false_of_ne (fun he => hak he.symm)
          simp only [List.map_cons, if_neg hak, List.lookup_cons, hba]
          exact ih h

theorem lookup_map_update_ne (k k' : String) (v : Int) (d : EnvParams)
    (h : ¬ k' = k) :
    (d.map (fun kv => if kv.1 = k then (k, v) else kv)).lookup k' = d.lookup k' := by
  induction d with
  | nil => simp
  | cons hd tl ih =>
      obtain ⟨a, b⟩ := hd
      by_cases hak : a = k
      · have hba : (k' == k) = false := beq_false_of_ne h
        have hba' : (k' == a) = false :=
          beq_false_of_ne (fun hia => h (hia.trans hak))
        simp only [List.map_cons, if_pos hak, List.lookup_cons, hba, hba']
        exact ih
      · by_cases hk' : k' = a
        · subst hk'
          simp only [List.map_cons, if_neg hak, List.lookup_cons, beq_self_eq_true]
        · have hba : (k' == a) = false := beq_false_of_ne hk'
          simp only [List.map_cons, if_neg hak, List.lookup_cons, hba]
          exact ih

theorem lookup_append_single (k : String) (v : Int) (d : EnvParams)
    (h : d.any (fun kv => decide (kv.1 = k)) = false) :
    (d ++ [(k, v)]).lookup k = some v := by
  have hnone : d.lookup k = none := by
    rw [List.lookup_eq_none_iff]
    intro p hp
    have hne : ¬ p.1 = k := by
      intro hpk
      have : d.any (fun kv => decide (kv.1 = k)) = true :=
        List.any_eq_true.mpr ⟨p, hp, by simpa using hpk⟩
      simp [this] at h
    simpa [bne_iff_ne] using fun hkp => hne hkp.symm
  rw [List.lookup_append, hnone]
  simp

theorem lookup_append_single_ne (k k' : String) (v : Int) (d : EnvParams)
    (h : ¬ k' = k) :
    (d ++ [(k, v)]).lookup k' = d.lookup k' := by
  rw [List.lookup_append]
  have hnone : ([(k, v)] : EnvParams).lookup k' = none := by
    have hba : (k' == k) = false := beq_false_of_ne h
    simp [List.lookup_cons, hba]
  rw [hnone, Option.or_none]

theorem lookup_dict_setitem_self (d : EnvParams) (k : String) (v : Int) :
    (dict_setitem d k v).lookup k = some v := by
  unfold dict_setitem
  by_cases h : d.any (fun kv => decide (kv.1 = k)) = true
  · simpa [h] using lookup_map_update k v d h
  · simp only [Bool.not_eq_true] at h
    simpa [h] using lookup_append_single k v d h

theorem lookup_dict_setitem_ne (d : EnvParams) (k k' : String) (v : Int)
    (h : ¬ k' = k) :
    (dict_setitem d k v).lookup k' = d.lookup k' := by
  unfold dict_setitem
  by_cases hc : d.any (fun kv => decide (kv.1 = k)) = true
  · simpa [hc] using lookup_map_update_ne k k' v d h
  · simp only [Bool.not_eq_true] at hc
    simpa [hc] using lookup_append_single_ne k k' v d h

theorem mem_dict_setitem (d : EnvParams) (k : String) (v : Int) (kv : String × Int)
    (h : kv ∈ dict_setitem d k v) : kv.1 = k ∨ kv ∈ d := by
  unfold dict_setitem at h
  by_cases hc : d.any (fun kv => decide (kv.1 = k)) = true
  · simp only [hc, if_true] at h
    rcases List.mem_map.mp h with ⟨kv', hkv', heq⟩
    by_cases hk' : kv'.1 = k
    · left
      rw [if_pos hk'] at heq
      rw [← heq]
    · right
      rw [if_neg hk'] at heq
      rw [← heq]
      exact hkv'
  · simp only [Bool.not_eq_true] at hc
    simp only [hc, Bool.false_eq_true, if_false, List.mem_append,
      List.mem_singleton] at h
    rcases h with h | h
    · exact Or.inr h
    · exact Or.inl (by rw [h])

theorem mem_recalculate_valid (cs ca : EnvParams → Int) (env : EnvParams)
    (henv : ∀ kv ∈ env, kv.1 ∈ valid_params) :
    ∀ kv ∈ recalculate_environment cs ca env, kv.1 ∈ valid_params := by
  intro kv hkv
  unfold recalculate_environment at hkv
  rcases mem_dict_setitem _ _ _ _ hkv with h | h
  · rw [h]; decide
  · rcases mem_dict_setitem _ _ _ _ h with h' | h'
    · rw [h']; decide
    · exact henv kv h'

/-! ## Claim theorems: environment parameters -/

/-- C3: for every dictionary assigned to `Process.env_params`, every
unrecognized key is dropped, a warning is issued iff at least one key is
unrecognized, and the resulting stored parameter set (including the
derived entries written by the immediate recalculation) contains only
recognized keys. -/
theorem env_params_setter_valid_subset_and_warning
    (cs ca : EnvParams → Int) (old p : EnvParams) :
    ((env_params_setter cs ca old (some p)).2 = true ↔
      ∃ kv ∈ p, kv.1 ∉ valid_params) ∧
    ∀ kv ∈ (env_params_setter cs ca old (some p)).1, kv.1 ∈ valid_params := by
  constructor
  · show decide (env_params_filter p ≠ p) = true ↔ _
    rw [decide_eq_true_iff]
    unfold env_params_filter
    rw [ne_eq, List.filter_eq_self]
    push_neg
    simp
  · intro kv hkv
    refine mem_recalculate_valid cs ca (env_params_filter p) ?_ kv hkv
    intro kv' hkv'
    have hmem := List.mem_filter.mp hkv'
    simpa using hmem.2

/-- Witness for C3: assigning a dict with the valid key
`sea_water_salinity` and the unrecognized key `bad_key` issues a warning. -/
theorem env_params_setter_valid_subset_and_warning_witness :
    (env_params_setter (fun _ => 0) (fun _ => 0) []
      (some [("sea_water_salinity", 35), ("bad_key", 1)])).2 = true :=
  (env_params_setter_valid_subset_and_warning (fun _ => 0) (fun _ => 0) []
      [("sea_water_salinity", 35), ("bad_key", 1)]).1.mpr
    ⟨("bad_key", 1), by decide, by decide⟩

/-- C9: assigning a dict to `Process.env_params` replaces rather than
merges — the new stored set does not depend on the old one, and before the
recalculation step it is exactly the valid-key subset of the assigned
dict; assigning `None` leaves the stored parameters unchanged. -/
theorem env_params_setter_replaces
    (cs ca : EnvParams → Int) (old old' p : EnvParams) :
    (env_params_setter cs ca old none).1 = old ∧
    env_params_setter cs ca old (some p) = env_params_setter cs ca old' (some p) ∧
    (∀ kv, kv ∈ env_params_filter p ↔ kv ∈ p ∧ kv.1 ∈ valid_params) ∧
    (env_params_setter cs ca old (some p)).1
      = recalculate_environment cs ca (env_params_filter p) :=
  ⟨rfl, rfl, fun kv => by
      unfold env_params_filter
      rw [List.mem_filter]
      simp, rfl⟩

/-- Witness for C9: with a stored salinity entry, assigning `None` leaves
the stored parameters unchanged. -/
theorem env_params_setter_replaces_witness :
    (env_params_setter (fun _ => 0) (fun _ => 0)
      [("sea_water_salinity", 1)] none).1 = [("sea_water_salinity", 1)] :=
  (env_params_setter_replaces (fun _ => 0) (fun _ => 0)
      [("sea_water_salinity", 1)] [] []).1

/-- C8 counterexample: recalculation is NOT deferred to the next
calibration call.  With a stored sound speed of 1500 and a sound-speed
formula returning 1480, assigning `{'sea_water_salinity': 35}` to
`Process.env_params` changes the stored
`speed_of_sound_in_sea_water` immediately, no calibration involved —
the setter calls `recalculate_environment` eagerly
(src/echopype/process/process_new.py lines 114-115). -/
theorem env_params_lazy_recalc_cex :
    ¬ ((env_params_setter (fun _ => 1480) (fun _ => 0)
          [("speed_of_sound_in_sea_water", 1500)]
          (some [("sea_water_salinity", 35)])).1.lookup
            "speed_of_sound_in_sea_water" = some 1500) := by
  decide

/-- C8 amended: assigning a (non-`None`) dict to `Process.env_params`
eagerly recomputes the derived values during the write: afterwards the
stored `speed_of_sound_in_sea_water` is the freshly computed
`calc_sound_speed` of the filtered dict, and the stored
`seawater_absorption` is the freshly computed `calc_seawater_absorption`
of the intermediate state, before any calibration call. -/
theorem env_params_setter_eager_recalc
    (cs ca : EnvParams → Int) (old p : EnvParams) :
    ((env_params_setter cs ca old (some p)).1).lookup "speed_of_sound_in_sea_water"
      = some (cs (env_params_filter p)) ∧
    ((env_params_setter cs ca old (some p)).1).lookup "seawater_absorption"
      = some (ca (dict_setitem (env_params_filter p) "speed_of_sound_in_sea_water"
          (cs (env_params_filter p)))) := by
  constructor
  · show (recalculate_environment cs ca (env_params_filter p)).lookup _ = _
    unfold recalculate_environment
    rw [lookup_dict_setitem_ne _ _ _ _ (by decide)]
    exact lookup_dict_setitem_self _ _ _
  · show (recalculate_environment cs ca (env_params_filter p)).lookup _ = _
    unfold recalculate_environment
    exact lookup_dict_setitem_self _ _ _

/-- Witness for the amended C8: with a sound-speed formula constantly 7,
an assignment stores sound speed 7 at once. -/
theorem env_params_setter_eager_recalc_witness :
    ((env_params_setter (fun _ => 7) (fun _ => 9) [] (some [])).1).lookup
      "speed_of_sound_in_sea_water" = some 7 :=
  (env_params_setter_eager_recalc (fun _ => 7) (fun _ => 9) [] []).1

/-! ## Helper lemmas about `split_char` -/

theorem split_char_append (c : Char) (rest : List Char) :
    ∀ a : List Char, c ∉ a →
      split_char c (a ++ c :: rest) = a :: split_char c rest := by
  intro a
  induction a with
  | nil => intro _; simp [split_char]
  | cons x xs ih =>
      intro ha
      have hxc : ¬ x = c := fun h => ha (h ▸ List.mem_cons_self x xs)
      have ha' : c ∉ xs := fun h => ha (List.mem_cons_of_mem _ h)
      simp only [List.cons_append, split_char, if_neg hxc, List.append_eq]
      rw [ih ha']

theorem split_char_quoted (a v b : List Char) (ha : squote ∉ a) (hv : squote ∉ v) :
    (split_char squote (a ++ squote :: (v ++ squote :: b))).getD 1 [] = v := by
  rw [split_char_append squote _ a ha, split_char_append squote b v hv]
  rfl

/-! ## Claim theorems: opening raw-file groups -/

/-- C4: opening raw files merged into one dataset fails with an error
naming the offending parameter when a key parameter differs across the
files (a merge conflict on variable `v` becomes
`"Files cannot be opened due to v changing across the files"`), a merge
conflict is never silently turned into a success, and opening with no raw
files set fails with `"No raw files to open"`. -/
theorem from_raw_consistency
    (paths : List String) (a v b msg : List Char) (r : RawOpenResult)
    (ha : squote ∉ a) (hv : squote ∉ v) :
    from_raw none r = Except.error "No raw files to open".toList ∧
    from_raw (some paths)
        (RawOpenResult.mergeError (a ++ squote :: (v ++ squote :: b)))
      = Except.error ("Files cannot be opened due to ".toList ++ v
          ++ " changing across the files".toList) ∧
    from_raw (some paths) (RawOpenResult.mergeError msg) ≠ Except.ok () := by
  refine ⟨rfl, ?_, ?_⟩
  · show (Except.error ("Files cannot be opened due to ".toList
        ++ (split_char squote (a ++ squote :: (v ++ squote :: b))).getD 1 []
        ++ " changing across the files".toList) : Except (List Char) Unit) = _
    rw [split_char_quoted a v b ha hv]
  · exact fun h => Except.noConfusion h

/-- Witness for C4: a merge conflict on `sample_interval` produces the
error naming `sample_interval`. -/
theorem from_raw_consistency_witness :
    from_raw (some ["f1.nc", "f2.nc"])
        (RawOpenResult.mergeError ("conflicting values for variable ".toList
          ++ squote :: ("sample_interval".toList ++ squote :: [])))
      = Except.error ("Files cannot be opened due to ".toList
          ++ "sample_interval".toList ++ " changing across the files".toList) :=
  (from_raw_consistency ["f1.nc", "f2.nc"]
      "conflicting values for variable ".toList "sample_interval".toList [] []
      RawOpenResult.ok (by decide) (by decide)).2.1

/-- C6: each raw-group reader opens exactly its own single named group
(`Environment`, `Vendor`, `Beam` respectively), and the result of opening
a group depends only on that group of the converted file, so each group
is loadable on its own. -/
theorem group_getters_open_own_group
    (raw_path : List String) (fmt : Option String) (s s' : String → Option Nat) :
    (get_env_from_raw_args raw_path fmt).group = some "Environment" ∧
    (get_vend_from_raw_args raw_path fmt).group = some "Vendor" ∧
    (get_beam_from_raw_args raw_path fmt).group = some "Beam" ∧
    (s "Environment" = s' "Environment" →
      open_group s (get_env_from_raw_args raw_path fmt)
        = open_group s' (get_env_from_raw_args raw_path fmt)) ∧
    (s "Vendor" = s' "Vendor" →
      open_group s (get_vend_from_raw_args raw_path fmt)
        = open_group s' (get_vend_from_raw_args raw_path fmt)) ∧
    (s "Beam" = s' "Beam" →
      open_group s (get_beam_from_raw_args raw_path fmt)
        = open_group s' (get_beam_from_raw_args raw_path fmt)) :=
  ⟨rfl, rfl, rfl, fun h => h, fun h => h, fun h => h⟩

/-- Witness for C6: opening the Environment group gives the same result
over two stores that agree on the Environment group only. -/
theorem group_getters_open_own_group_witness :
    open_group (fun g => if g = "Environment" then some 1 else none)
        (get_env_from_raw_args ["f.nc"] (some "netcdf4"))
      = open_group (fun g => if g = "Environment" then some 1 else some 2)
        (get_env_from_raw_args ["f.nc"] (some "netcdf4")) :=
  (group_getters_open_own_group ["f.nc"] (some "netcdf4")
      (fun g => if g = "Environment" then some 1 else none)
      (fun g => if g = "Environment" then some 1 else some 2)).2.2.2.1 (by decide)

/-! ## Claim theorems: calibration -/

/-- C5: a specified waveform_mode outside {"CW", "BB"}, or a specified
encode_mode outside {"complex", "power"}, makes `_compute_cal` raise a
ValueError before any calibration object is constructed and before any
numeric computation starts. -/
theorem compute_cal_invalid_mode_value_error
    (cal_type model : String) (wm em : Option String)
    (h : (∃ w, wm = some w ∧ ¬ w = "BB" ∧ ¬ w = "CW") ∨
         ((wm = none ∨ wm = some "BB" ∨ wm = some "CW") ∧
           ∃ e, em = some e ∧ ¬ e = "complex" ∧ ¬ e = "power")) :
    (∃ m, _compute_cal cal_type model wm em = [CalEvent.raiseValue m]) ∧
    (∀ m, CalEvent.constructCalObj m ∉ _compute_cal cal_type model wm em) ∧
    (∀ ct, CalEvent.numericCompute ct ∉ _compute_cal cal_type model wm em) := by
  have htr : ∃ m, _compute_cal cal_type model wm em = [CalEvent.raiseValue m] := by
    rcases h with ⟨w, hw, hbb, hcw⟩ | ⟨hwm, e, he, hc, hp⟩
    · refine ⟨"Input waveform_mode not recognized!", ?_⟩
      unfold _compute_cal
      rw [if_pos ⟨by simp [hw], by simp [hw, hbb], by simp [hw, hcw]⟩]
    · have hC1 : ¬ (¬ wm = none ∧ ¬ wm = some "BB" ∧ ¬ wm = some "CW") := by
        rcases hwm with h1 | h1 | h1 <;> simp [h1]
      refine ⟨"Input encode_mode not recognized!", ?_⟩
      unfold _compute_cal
      rw [if_neg hC1,
        if_pos ⟨by simp [he], by simp [he, hc], by simp [he, hp]⟩]
  obtain ⟨m, hm⟩ := htr
  refine ⟨⟨m, hm⟩, ?_, ?_⟩ <;> intro x hx <;> rw [hm] at hx <;> simp at hx

/-- Witness for C5: waveform_mode "XX" yields the ValueError trace. -/
theorem compute_cal_invalid_mode_value_error_witness :
    ∃ m, _compute_cal "Sv" "EK60" (some "XX") none = [CalEvent.raiseValue m] :=
  (compute_cal_invalid_mode_value_error "Sv" "EK60" (some "XX") none
    (Or.inl ⟨"XX", rfl, by decide, by decide⟩)).1

/-- C1: requesting an Sv or Sp calibration with waveform_mode "BB"
together with encode_mode "power" raises a configuration error before any
numeric computation starts, for every supported sonar model. -/
theorem compute_cal_bb_power_config_error
    (cal_type model : String) (h : model ∈ CALIBRATOR_keys) :
    (∃ m, CalEvent.raiseConfig m
        ∈ _compute_cal cal_type model (some "BB") (some "power")) ∧
    (∀ ct, CalEvent.numericCompute ct
        ∉ _compute_cal cal_type model (some "BB") (some "power")) := by
  have htr : _compute_cal cal_type model (some "BB") (some "power") =
      [CalEvent.constructCalObj model,
       CalEvent.raiseConfig "waveform_mode BB requires encode_mode complex"] := by
    unfold _compute_cal
    rw [if_neg (by simp), if_neg (by simp), if_pos h]
    unfold calibrator_compute
    rw [if_neg (by simp), if_pos (by simp)]
  rw [htr]
  exact ⟨⟨"waveform_mode BB requires encode_mode complex", by simp⟩,
    fun ct => by simp⟩

/-- Witness for C1: EK80 Sv with BB/power hits the configuration error. -/
theorem compute_cal_bb_power_config_error_witness :
    ∃ m, CalEvent.raiseConfig m
        ∈ _compute_cal "Sv" "EK80" (some "BB") (some "power") :=
  (compute_cal_bb_power_config_error "Sv" "EK80" (by decide)).1

/-- C2: for a broadband-capable sonar model (EK60 or EK80), calling the
calibration with waveform_mode unspecified fails with a configuration
error — no default is applied, no numeric computation starts, and no
(mere) ValueError is what signals it. -/
theorem compute_cal_missing_waveform_config_error
    (cal_type model : String) (em : Option String)
    (hm : model = "EK60" ∨ model = "EK80")
    (he : em = none ∨ em = some "complex" ∨ em = some "power") :
    (∃ m, CalEvent.raiseConfig m ∈ _compute_cal cal_type model none em) ∧
    (∀ ct, CalEvent.numericCompute ct ∉ _compute_cal cal_type model none em) ∧
    (∀ m, CalEvent.raiseValue m ∉ _compute_cal cal_type model none em) := by
  have hkey : model ∈ CALIBRATOR_keys := by
    rcases hm with h | h <;> rw [h] <;> decide
  have htr : _compute_cal cal_type model none em =
      [CalEvent.constructCalObj model,
       CalEvent.raiseConfig "waveform_mode and encode_mode must be specified"] := by
    unfold _compute_cal
    rw [if_neg (by simp), if_neg (by rcases he with h | h | h <;> simp [h]),
      if_pos hkey]
    unfold calibrator_compute
    rw [if_pos ⟨hm, Or.inl rfl⟩]
  rw [htr]
  exact ⟨⟨"waveform_mode and encode_mode must be specified", by simp⟩,
    fun ct => by simp, fun m => by simp⟩

/-- Witness for C2: EK80 Sv with waveform_mode None raises the
configuration error. -/
theorem compute_cal_missing_waveform_config_error_witness :
    ∃ m, CalEvent.raiseConfig m ∈ _compute_cal "Sv" "EK80" none none :=
  (compute_cal_missing_waveform_config_error "Sv" "EK80" none
    (Or.inr rfl) (Or.inl rfl)).1

/-- C7: `compute_Sv` is a deterministic function of its arguments and does
not mutate the `EchoData` it reads, so running it twice in sequence with
an identical calibration context yields identical results. -/
theorem compute_Sv_run_deterministic
    (ed : EchoDataS) (env cal : EnvParams) (wm em : Option String) :
    (compute_Sv_run ed env cal wm em).1
      = (compute_Sv_run (compute_Sv_run ed env cal wm em).2 env cal wm em).1 ∧
    (compute_Sv_run ed env cal wm em).2 = ed :=
  ⟨rfl, rfl⟩

/-! ## Claim theorems: file format dispatch -/

/-- C10: `get_file_format` returns `netcdf4` for paths ending in `.nc`,
`zarr` for paths ending in `.zarr`, and `None` (without raising) for
anything else; `save_file` writes via netCDF only for engine `netcdf4`,
via zarr only for engine `zarr`, and performs no write otherwise. -/
theorem get_file_format_save_file_spec
    (file : List Char) (path engine : String) :
    (".nc".toList <:+ file → get_file_format file = some "netcdf4") ∧
    (".zarr".toList <:+ file → get_file_format file = some "zarr") ∧
    (¬ ".nc".toList <:+ file → ¬ ".zarr".toList <:+ file →
      get_file_format file = none) ∧
    save_file path "netcdf4" = some (WriteAction.toNetcdf path) ∧
    save_file path "zarr" = some (WriteAction.toZarr path) ∧
    (¬ engine = "netcdf4" → ¬ engine = "zarr" → save_file path engine = none) := by
  refine ⟨?_, ?_, ?_, ?_, ?_, ?_⟩
  · intro h
    unfold get_file_format
    rw [if_pos h]
  · intro h
    have hnc : ¬ ".nc".toList <:+ file := by
      intro hnc
      rcases List.suffix_or_suffix_of_suffix hnc h with hs | hs
      · exact absurd hs (by decide)
      · exact absurd hs (by decide)
    unfold get_file_format
    rw [if_neg hnc, if_pos h]
  · intro h1 h2
    unfold get_file_format
    rw [if_neg h1, if_neg h2]
  · unfold save_file
    rw [if_pos rfl]
  · unfold save_file
    rw [if_neg (by decide), if_pos rfl]
  · intro h1 h2
    unfold save_file
    rw [if_neg h1, if_neg h2]

/-- Witness for C10: a `.zarr` path maps to the zarr engine. -/
theorem get_file_format_save_file_spec_witness :
    get_file_format "test.zarr".toList = some "zarr" :=
  (get_file_format_save_file_spec "test.zarr".toList "p" "e").2.1 (by decide)
